import Mathlib

/-
  Shallow embedding of the card-inventory ledger and recharge-request
  workflow of the repository (src/app/services/cards.py,
  src/app/services/requests.py, src/app/database/models.py and the
  direct-send handler flows in src/app/handlers/).

  Conventions:
  - persisted tables are Lean lists kept in insertion order (commit order);
  - primary keys are Nats handed out by per-table counters;
  - timestamps are a logical clock (Nat) incremented on every write that
    touches a timestamp column, which is enough for ordering claims;
  - each service method is a function DBState -> Except DBError (DBState x row);
    an error result models the exception propagating out of the
    `async with session` block, whose rollback leaves the store untouched,
    so the error constructor carries no state;
  - the SQL check constraints of models.py (amount > 0, unique serial) are
    enforced at the point the Python session would flush; the observable
    outcome (typed error, nothing persisted) is identical.
-/

namespace Rasid

inductive CardType where
  | asia
  | athir
deriving DecidableEq, Repr

inductive CardStatus where
  | available
  | reserved
  | sent
  | archived
deriving DecidableEq, Repr

inductive InventoryAction where
  | add
  | reserve
  | send
  | restore
  | thresholdAlert
deriving DecidableEq, Repr

inductive RequestStatus where
  | pending_manager
  | pending_accounting
  | approved
  | rejected
  | cancelled
deriving DecidableEq, Repr

inductive RequestType where
  | fixed
  | custom
deriving DecidableEq, Repr

inductive UserRole where
  | admin
  | responsible
  | user
deriving DecidableEq, Repr

/-- Card row (models.py class Card). `amount` is an Int so that the
check-constraint condition `amount > 0` is meaningful. -/
structure Card where
  id : Nat
  card_type : CardType
  amount : Int
  status : CardStatus
  image_file_id : Option String
  image_path : Option String
  serial_number : Option String
  added_by_id : Option Nat
deriving DecidableEq, Repr

/-- CardInventoryLog row. Rows live in an append-only list whose order is
creation (commit) order, so the timestamp column is not re-modelled. -/
structure CardInventoryLog where
  card_id : Nat
  actor_id : Option Nat
  action : InventoryAction
  note : Option String
deriving DecidableEq, Repr

/-- RechargeRequest row (models.py). `updated_at` has an onupdate hook in
the source, so every ORM update of the row refreshes it. -/
structure RechargeRequest where
  id : Nat
  requester_id : Nat
  responsible_id : Option Nat
  accounting_id : Option Nat
  approver_id : Option Nat
  request_type : RequestType
  amount : Int
  status : RequestStatus
  final_card_id : Option Nat
  card_type : Option CardType
  created_at : Nat
  updated_at : Nat
deriving DecidableEq, Repr

/-- RequestStatusHistory row, append-only, list order = creation order. -/
structure RequestStatusHistory where
  request_id : Nat
  actor_id : Option Nat
  from_status : Option RequestStatus
  to_status : RequestStatus
  note : Option String
deriving DecidableEq, Repr

/-- The persisted store: the five tables the claims touch plus id counters
and the logical clock. -/
structure DBState where
  cards : List Card
  card_logs : List CardInventoryLog
  requests : List RechargeRequest
  histories : List RequestStatusHistory
  next_card_id : Nat
  next_request_id : Nat
  clock : Nat
deriving DecidableEq, Repr

/-- Names of the SQL constraints of models.py that the claims mention. -/
inductive ConstraintName where
  | ck_card_amount_positive
  | uq_card_serial
  | ck_recharge_amount_positive
deriving DecidableEq, Repr

/-- Typed errors: validationError models Python ValueError raised by the
service before any write; integrityError models the database rejecting a
flush (constraint violation, rolled back); noResultFound models
sqlalchemy.exc.NoResultFound. -/
inductive DBError where
  | validationError
  | integrityError (c : ConstraintName)
  | noResultFound
deriving DecidableEq, Repr

def emptyDB : DBState :=
  { cards := [], card_logs := [], requests := [], histories := [],
    next_card_id := 1, next_request_id := 1, clock := 0 }

/-- CardService._log: append one inventory-log row (same transaction as the
surrounding status change). -/
def card_log (s : DBState) (card_id : Nat) (action : InventoryAction)
    (actor_id : Option Nat) (note : Option String) : DBState :=
  { s with card_logs := s.card_logs ++
      [{ card_id := card_id, actor_id := actor_id, action := action, note := note }] }

/-- Does some existing card already carry this serial number
(uq_card_serial)? -/
def serialConflicts (cards : List Card) (serial : Option String) : Bool :=
  match serial with
  | none => false
  | some sn => cards.any (fun c => c.serial_number = some sn)

/-- CardService.add_card. The source raises ValueError when both
image_file_id and serial_number are absent, before a session is opened;
the amount > 0 check constraint and the serial uniqueness constraint of
models.py reject the flush otherwise, rolling back the transaction, so on
every error branch nothing is persisted. -/
def add_card (s : DBState) (card_type : CardType) (amount : Int)
    (actor_id : Option Nat) (image_file_id image_path serial_number : Option String) :
    Except DBError (DBState × Card) :=
  if image_file_id = none ∧ serial_number = none then
    .error .validationError
  else if amount ≤ 0 then
    .error (.integrityError .ck_card_amount_positive)
  else if serialConflicts s.cards serial_number then
    .error (.integrityError .uq_card_serial)
  else
    let card : Card :=
      { id := s.next_card_id, card_type := card_type, amount := amount,
        status := .available, image_file_id := image_file_id,
        image_path := image_path, serial_number := serial_number,
        added_by_id := actor_id }
    let s1 : DBState :=
      { s with cards := s.cards ++ [card], next_card_id := s.next_card_id + 1 }
    .ok (card_log s1 card.id .add actor_id none, card)

/-- The WHERE clause of take_first_available / list_available /
count_available: matching type and amount, status AVAILABLE. -/
def cardMatches (ct : CardType) (amount : Int) (c : Card) : Bool :=
  decide (c.card_type = ct) && decide (c.amount = amount) &&
    decide (c.status = CardStatus.available)

/-- Rows visible to the skip-locked SELECT: matching rows whose id is not
in the set of rows locked by another in-flight transaction. -/
def eligibleCards (s : DBState) (ct : CardType) (amount : Int)
    (locked : List Nat) : List Card :=
  s.cards.filter (fun c => cardMatches ct amount c && !(decide (c.id ∈ locked)))

/-- Pick the row with the smallest id, starting from candidate `best`. -/
def minByIdAux (best : Card) (rest : List Card) : Card :=
  match rest with
  | [] => best
  | c :: cs => minByIdAux (if c.id < best.id then c else best) cs

/-- ORDER BY card.id, then .first(): the smallest-id row, if any. -/
def firstByIdOrder (cs : List Card) : Option Card :=
  match cs with
  | [] => none
  | c :: cs => some (minByIdAux c cs)

/-- UPDATE card SET status = st WHERE id = cid. -/
def setCardStatus (cards : List Card) (cid : Nat) (st : CardStatus) : List Card :=
  cards.map (fun c => if c.id = cid then { c with status := st } else c)

/-- session.get(Card, cid). -/
def getCard (cards : List Card) (cid : Nat) : Option Card :=
  cards.find? (fun c => decide (c.id = cid))

/-- CardService.take_first_available: skip-locked select of the oldest
(smallest-id) AVAILABLE match, mark it RESERVED, append one RESERVE log
row, all in one transaction; NoResultFound when the select is empty.
`locked` is the set of card ids exclusively locked by other in-flight
transactions, which the skip-locked select passes over. -/
def take_first_available (s : DBState) (ct : CardType) (amount : Int)
    (actor_id : Option Nat) (locked : List Nat) : Except DBError (DBState × Card) :=
  match firstByIdOrder (eligibleCards s ct amount locked) with
  | none => .error .noResultFound
  | some card =>
      let s1 : DBState := { s with cards := setCardStatus s.cards card.id .reserved }
      .ok (card_log s1 card.id .reserve actor_id none,
           { card with status := .reserved })

/-- CardService.count_available. -/
def count_available (s : DBState) (ct : CardType) (amount : Int) : Nat :=
  (s.cards.filter (cardMatches ct amount)).length

/-- CardService.mark_sent: loads the card under lock; NoResultFound when
absent; otherwise sets status SENT (without inspecting the prior status)
and appends one SEND log row. -/
def mark_sent (s : DBState) (cid : Nat) (actor_id : Option Nat) :
    Except DBError (DBState × Card) :=
  match getCard s.cards cid with
  | none => .error .noResultFound
  | some card =>
      let s1 : DBState := { s with cards := setCardStatus s.cards cid .sent }
      .ok (card_log s1 cid .send actor_id none, { card with status := .sent })

/-- CardService.restore_card: loads the card under lock; NoResultFound
when absent; otherwise sets status AVAILABLE (without inspecting the prior
status) and appends one RESTORE log row. -/
def restore_card (s : DBState) (cid : Nat) (actor_id : Option Nat) :
    Except DBError (DBState × Card) :=
  match getCard s.cards cid with
  | none => .error .noResultFound
  | some card =>
      let s1 : DBState := { s with cards := setCardStatus s.cards cid .available }
      .ok (card_log s1 cid .restore actor_id none, { card with status := .available })

/-- RequestService._log: append one status-history row (same transaction
as the surrounding change). -/
def request_log (s : DBState) (request_id : Nat) (actor_id : Option Nat)
    (from_status : Option RequestStatus) (to_status : RequestStatus)
    (note : Option String) : DBState :=
  { s with histories := s.histories ++
      [{ request_id := request_id, actor_id := actor_id,
         from_status := from_status, to_status := to_status, note := note }] }

/-- session.get(RechargeRequest, rid). -/
def getRequest (reqs : List RechargeRequest) (rid : Nat) : Option RechargeRequest :=
  reqs.find? (fun r => decide (r.id = rid))

/-- Apply an ORM field update to the request row with id `rid`. The
onupdate hook of models.py refreshes updated_at on every such update, so
callers fold that refresh into `f`. -/
def updateRequest (reqs : List RechargeRequest) (rid : Nat)
    (f : RechargeRequest → RechargeRequest) : List RechargeRequest :=
  reqs.map (fun r => if r.id = rid then f r else r)

/-- RequestService.create_request: inserts a new request (the
ck_recharge_amount_positive constraint rejects amount ≤ 0 at flush) and
appends one history row with from_status = null, to_status = the initial
status, actor = the requester. -/
def create_request (s : DBState) (requester_id : Nat) (responsible_id : Option Nat)
    (amount : Int) (request_type : RequestType) (status : RequestStatus)
    (note : Option String) (card_type : Option CardType) :
    Except DBError (DBState × RechargeRequest) :=
  if amount ≤ 0 then
    .error (.integrityError .ck_recharge_amount_positive)
  else
    let req : RechargeRequest :=
      { id := s.next_request_id, requester_id := requester_id,
        responsible_id := responsible_id, accounting_id := none,
        approver_id := none, request_type := request_type, amount := amount,
        status := status, final_card_id := none, card_type := card_type,
        created_at := s.clock, updated_at := s.clock }
    let s1 : DBState :=
      { s with requests := s.requests ++ [req],
               next_request_id := s.next_request_id + 1, clock := s.clock + 1 }
    .ok (request_log s1 req.id (some requester_id) none status note, req)

/-- RequestService.set_status: loads the request under exclusive lock;
NoResultFound when absent; otherwise records from_status = current status,
sets the new status, refreshes updated_at, and appends one history row.
No transition is ever rejected. -/
def set_status (s : DBState) (rid : Nat) (actor_id : Option Nat)
    (new_status : RequestStatus) (note : Option String) :
    Except DBError (DBState × RechargeRequest) :=
  match getRequest s.requests rid with
  | none => .error .noResultFound
  | some req =>
      let upd : RechargeRequest → RechargeRequest :=
        fun r => { r with status := new_status, updated_at := s.clock }
      let s1 : DBState :=
        { s with requests := updateRequest s.requests rid upd,
                 clock := s.clock + 1 }
      .ok (request_log s1 rid actor_id (some req.status) new_status note,
           { req with status := new_status, updated_at := s.clock })

/-- RequestService.attach_card: loads the request under exclusive lock;
NoResultFound when absent; otherwise sets final_card_id (updated_at
refreshed by the onupdate hook) and appends one history row with
unchanged status and note "Card assigned". -/
def attach_card (s : DBState) (rid : Nat) (card_id : Nat)
    (actor_id : Option Nat) : Except DBError (DBState × RechargeRequest) :=
  match getRequest s.requests rid with
  | none => .error .noResultFound
  | some req =>
      let upd : RechargeRequest → RechargeRequest :=
        fun r => { r with final_card_id := some card_id, updated_at := s.clock }
      let s1 : DBState :=
        { s with requests := updateRequest s.requests rid upd,
                 clock := s.clock + 1 }
      .ok (request_log s1 rid actor_id (some req.status) req.status
             (some ("Card assigned")),
           { req with final_card_id := some card_id, updated_at := s.clock })

/-- RequestService.set_approver: loads the request under exclusive lock;
NoResultFound when absent; otherwise sets approver_id (updated_at
refreshed by the onupdate hook). It appends no history row. -/
def set_approver (s : DBState) (rid : Nat) (approver_id : Nat) :
    Except DBError (DBState × RechargeRequest) :=
  match getRequest s.requests rid with
  | none => .error .noResultFound
  | some req =>
      let upd : RechargeRequest → RechargeRequest :=
        fun r => { r with approver_id := some approver_id, updated_at := s.clock }
      let s1 : DBState :=
        { s with requests := updateRequest s.requests rid upd,
                 clock := s.clock + 1 }
      .ok (s1, { req with approver_id := some approver_id, updated_at := s.clock })

/-
  Handler-level models.
-/

/-- The slice of the User row the routing handler reads. -/
structure UserRec where
  id : Nat
  role : UserRole
  manager_id : Option Nat
  line_type : Option CardType
deriving DecidableEq, Repr

/-- Reasons _process_request returns to the chat user before calling any
service (so before anything is persisted). -/
inductive ProcessAbort where
  | invalidAmount
  | noResponsibleConfigured
deriving DecidableEq, Repr

/-- Errors a handler flow can surface. -/
inductive FlowError where
  | aborted (r : ProcessAbort)
  | db (e : DBError)
deriving DecidableEq, Repr

/-- handlers/requests.py _process_request, from the amount check onwards:
role-based routing of a freshly created request. Every .error branch is a
handler return executed before create_request, so nothing is persisted. -/
def process_request (s : DBState) (u : UserRec) (amount : Int)
    (request_type : RequestType) (card_type : Option CardType) :
    Except FlowError (DBState × RechargeRequest) :=
  if amount ≤ 0 then
    .error (.aborted .invalidAmount)
  else
    let routed : Except FlowError (Option Nat × RequestStatus) :=
      match u.role with
      | .user =>
          match u.manager_id with
          | none => .error (.aborted .noResponsibleConfigured)
          | some m => .ok (some m, .pending_manager)
      | .responsible => .ok (some u.id, .pending_accounting)
      | .admin => .ok (none, .pending_accounting)
    match routed with
    | .error e => .error e
    | .ok (responsible_id, status) =>
        match create_request s u.id responsible_id amount request_type status
            none card_type with
        | .error e => .error (.db e)
        | .ok r => .ok r

/-- Outcome of a direct-send flow, as far as the compensation contract is
concerned: either the flow completed, or it failed before reserving a
card, or it failed after reserving card `card_id`, with `restored`
recording whether restore_card ran before the error was surfaced. -/
inductive FlowOutcome where
  | success (card_id : Nat)
  | failedBeforeReserve
  | failedAfterReserve (card_id : Nat) (restored : Bool)
deriving DecidableEq, Repr

/-- handlers/requests.py _accounting_options: card types (enum order ASIA,
ATHIR) that have at least one AVAILABLE card of the given amount. -/
def accounting_options (s : DBState) (amount : Int) : List CardType :=
  ([CardType.asia, CardType.athir]).filter
    (fun ct => decide (0 < count_available s ct amount))

/-- handlers/requests.py handle_manager_decision, action == "send" fast
path (lines 337-393), entered once the guards before it passed (request
exists, belongs to the manager, status PENDING_MANAGER). Oracles:
`requester_has_telegram` models `requester and requester.telegram_id`;
`delivery_ok` models the boolean result of send_card_to_chat. On either
delivery-side failure the handler just returns: restore_card is never
called on this path. -/
def manager_send_flow (s : DBState) (request_id : Nat) (manager_id : Nat)
    (request_amount : Int) (can_approve_directly : Bool)
    (requester_has_telegram : Bool) (delivery_ok : Bool) :
    DBState × FlowOutcome :=
  if ¬can_approve_directly then (s, .failedBeforeReserve)
  else
    match accounting_options s request_amount with
    | [] => (s, .failedBeforeReserve)
    | ct :: _ =>
        match take_first_available s ct request_amount (some manager_id) [] with
        | .error _ => (s, .failedBeforeReserve)
        | .ok (s1, card) =>
            match attach_card s1 request_id card.id (some manager_id) with
            | .error _ => (s1, .failedAfterReserve card.id false)
            | .ok (s2, _) =>
                match set_approver s2 request_id manager_id with
                | .error _ => (s2, .failedAfterReserve card.id false)
                | .ok (s3, _) =>
                    match set_status s3 request_id (some manager_id)
                        .approved none with
                    | .error _ => (s3, .failedAfterReserve card.id false)
                    | .ok (s4, _) =>
                        if ¬requester_has_telegram then
                          (s4, .failedAfterReserve card.id false)
                        else if ¬delivery_ok then
                          (s4, .failedAfterReserve card.id false)
                        else
                          match mark_sent s4 card.id (some manager_id) with
                          | .error _ => (s4, .failedAfterReserve card.id false)
                          | .ok (s5, _) => (s5, .success card.id)

/-- The registration try-block of the direct admin send (admin.py lines
513-534): create_request, attach_card, set_status(APPROVED), and, when an
actor is known, set_approver, each committing separately. `steps_ok`
injects the infrastructure exception the except-clause guards against: an
exception fires before step n when steps_ok = n (steps_ok ≥ 4 means no
injected failure). Returns the state reached plus whether the block
completed. -/
def admin_register (s : DBState) (target_id : Nat) (actor_id : Option Nat)
    (card : Card) (steps_ok : Nat) : DBState × Bool :=
  if steps_ok = 0 then (s, false)
  else
    match create_request s target_id none card.amount .fixed .pending_manager
        none (some card.card_type) with
    | .error _ => (s, false)
    | .ok (s1, req) =>
        if steps_ok = 1 then (s1, false)
        else
          match attach_card s1 req.id card.id actor_id with
          | .error _ => (s1, false)
          | .ok (s2, _) =>
              if steps_ok = 2 then (s2, false)
              else
                match set_status s2 req.id actor_id .approved
                    (some ("Direct admin send")) with
                | .error _ => (s2, false)
                | .ok (s3, _) =>
                    if steps_ok = 3 then (s3, false)
                    else
                      match actor_id with
                      | none => (s3, true)
                      | some a =>
                          match set_approver s3 req.id a with
                          | .error _ => (s3, false)
                          | .ok (s4, _) => (s4, true)

/-- handlers/admin.py direct admin card send (lines 480-544), from the
take_first_available call onwards (the target user's telegram presence was
checked before this region). On delivery failure, and on any exception in
the registration try-block, restore_card runs before the handler returns. -/
def admin_send_flow (s : DBState) (target_id : Nat) (actor_id : Option Nat)
    (ct : CardType) (amount : Int) (delivery_ok : Bool) (steps_ok : Nat) :
    DBState × FlowOutcome :=
  match take_first_available s ct amount actor_id [] with
  | .error _ => (s, .failedBeforeReserve)
  | .ok (s1, card) =>
      if ¬delivery_ok then
        match restore_card s1 card.id actor_id with
        | .error _ => (s1, .failedAfterReserve card.id false)
        | .ok (s2, _) => (s2, .failedAfterReserve card.id true)
      else
        match admin_register s1 target_id actor_id card steps_ok with
        | (s2, false) =>
            match restore_card s2 card.id actor_id with
            | .error _ => (s2, .failedAfterReserve card.id false)
            | .ok (s3, _) => (s3, .failedAfterReserve card.id true)
        | (s2, true) =>
            match mark_sent s2 card.id actor_id with
            | .error _ => (s2, .failedAfterReserve card.id false)
            | .ok (s3, _) => (s3, .success card.id)

/-- The registration try-block of the direct responsible send
(responsible.py lines 388-408): create_request (responsible recorded),
attach_card, set_status(APPROVED), set_approver. Same exception model as
admin_register. -/
def responsible_register (s : DBState) (target_id : Nat) (responsible_id : Nat)
    (card : Card) (steps_ok : Nat) : DBState × Bool :=
  if steps_ok = 0 then (s, false)
  else
    match create_request s target_id (some responsible_id) card.amount .fixed
        .pending_manager none (some card.card_type) with
    | .error _ => (s, false)
    | .ok (s1, req) =>
        if steps_ok = 1 then (s1, false)
        else
          match attach_card s1 req.id card.id (some responsible_id) with
          | .error _ => (s1, false)
          | .ok (s2, _) =>
              if steps_ok = 2 then (s2, false)
              else
                match set_status s2 req.id (some responsible_id) .approved
                    (some ("Direct responsible send")) with
                | .error _ => (s2, false)
                | .ok (s3, _) =>
                    if steps_ok = 3 then (s3, false)
                    else
                      match set_approver s3 req.id responsible_id with
                      | .error _ => (s3, false)
                      | .ok (s4, _) => (s4, true)

/-- handlers/responsible.py direct responsible card send (lines 353-416),
from the take_first_available call onwards. On delivery failure, and on
any exception in the registration try-block, restore_card runs before the
handler returns. -/
def responsible_send_flow (s : DBState) (target_id : Nat)
    (responsible_id : Nat) (ct : CardType) (amount : Int)
    (delivery_ok : Bool) (steps_ok : Nat) : DBState × FlowOutcome :=
  match take_first_available s ct amount (some responsible_id) [] with
  | .error _ => (s, .failedBeforeReserve)
  | .ok (s1, card) =>
      if ¬delivery_ok then
        match restore_card s1 card.id (some responsible_id) with
        | .error _ => (s1, .failedAfterReserve card.id false)
        | .ok (s2, _) => (s2, .failedAfterReserve card.id true)
      else
        match responsible_register s1 target_id responsible_id card steps_ok with
        | (s2, false) =>
            match restore_card s2 card.id (some responsible_id) with
            | .error _ => (s2, .failedAfterReserve card.id false)
            | .ok (s3, _) => (s3, .failedAfterReserve card.id true)
        | (s2, true) =>
            match mark_sent s2 card.id (some responsible_id) with
            | .error _ => (s2, .failedAfterReserve card.id false)
            | .ok (s3, _) => (s3, .success card.id)

/-
  Concrete fixtures used by witnesses and counterexamples.
-/

/-- An AVAILABLE asia/5000 card with id 1. -/
def cardA : Card :=
  { id := 1, card_type := .asia, amount := 5000, status := .available,
    image_file_id := some ("file-a"), image_path := none,
    serial_number := none, added_by_id := some 7 }

/-- A second AVAILABLE asia/5000 card with id 2 (younger than cardA). -/
def cardB : Card :=
  { id := 2, card_type := .asia, amount := 5000, status := .available,
    image_file_id := none, image_path := none,
    serial_number := some ("SN-B"), added_by_id := some 7 }

/-- A pending-manager request with id 1 from user 10, responsible 20. -/
def reqP : RechargeRequest :=
  { id := 1, requester_id := 10, responsible_id := some 20,
    accounting_id := none, approver_id := none, request_type := .fixed,
    amount := 5000, status := .pending_manager, final_card_id := none,
    card_type := some .asia, created_at := 0, updated_at := 0 }

/-- Store holding cardA, cardB and reqP. -/
def dbTwoCards : DBState :=
  { cards := [cardA, cardB], card_logs := [], requests := [reqP],
    histories := [{ request_id := 1, actor_id := some 10,
                    from_status := none, to_status := .pending_manager,
                    note := none }],
    next_card_id := 3, next_request_id := 2, clock := 1 }

/-- Is the result the ValueError the service raises for missing
identifying fields? -/
def isValidationFailure (r : Except DBError (DBState × Card)) : Bool :=
  match r with
  | .error .validationError => true
  | _ => false

/-- The row create_request inserts, spelled out (abbreviation used only to
state theorems about the creation result). -/
def freshRequest (s : DBState) (requester : Nat) (resp : Option Nat)
    (amount : Int) (rt : RequestType) (st : RequestStatus)
    (ct : Option CardType) : RechargeRequest :=
  { id := s.next_request_id, requester_id := requester,
    responsible_id := resp, accounting_id := none, approver_id := none,
    request_type := rt, amount := amount, status := st,
    final_card_id := none, card_type := ct,
    created_at := s.clock, updated_at := s.clock }

/-- The store after a successful create_request of `req` (abbreviation
used only to state theorems about the creation result). -/
def afterCreate (s : DBState) (req : RechargeRequest) (note : Option String) :
    DBState :=
  { s with
      requests := s.requests ++ [req],
      next_request_id := s.next_request_id + 1,
      clock := s.clock + 1,
      histories := s.histories ++
        [{ request_id := req.id, actor_id := some req.requester_id,
           from_status := none, to_status := req.status, note := note }] }

/-- A USER requester with a manager configured. -/
def userU : UserRec :=
  { id := 10, role := .user, manager_id := some 20, line_type := some .asia }

/-- A USER requester with no manager configured. -/
def userNoMgr : UserRec :=
  { id := 11, role := .user, manager_id := none, line_type := none }

/-- A RESPONSIBLE requester. -/
def userR : UserRec :=
  { id := 20, role := .responsible, manager_id := none, line_type := none }

/-- An ADMIN requester. -/
def userA : UserRec :=
  { id := 30, role := .admin, manager_id := none, line_type := none }

/-- The request-workflow operations claim C3 ranges over: create_request,
set_status and attach_card, with their call parameters. -/
inductive ROp where
  | createOp (requester_id : Nat) (responsible_id : Option Nat)
      (amount : Int) (request_type : RequestType) (status : RequestStatus)
      (note : Option String) (card_type : Option CardType)
  | setStatusOp (rid : Nat) (actor : Option Nat) (st : RequestStatus)
      (note : Option String)
  | attachOp (rid : Nat) (card_id : Nat) (actor : Option Nat)

/-- Run one workflow operation; an operation that raises leaves the store
unchanged (its transaction rolls back). -/
def applyROp (s : DBState) (op : ROp) : DBState :=
  match op with
  | .createOp a b c d e f g =>
      match create_request s a b c d e f g with
      | .ok (s', _) => s'
      | .error _ => s
  | .setStatusOp rid actor st note =>
      match set_status s rid actor st note with
      | .ok (s', _) => s'
      | .error _ => s
  | .attachOp rid cid actor =>
      match attach_card s rid cid actor with
      | .ok (s', _) => s'
      | .error _ => s

/-- Run a sequence of workflow operations. -/
def runROps (s : DBState) (ops : List ROp) : DBState :=
  ops.foldl applyROp s

/-- The RequestStatusHistory rows of request `rid`, in creation order. -/
def requestHistory (s : DBState) (rid : Nat) : List RequestStatusHistory :=
  s.histories.filter (fun h => decide (h.request_id = rid))

/-- C3's invariant: every request has a non-empty history whose first row
has from_status = null and whose last row's to_status equals the
request's current status. -/
def historyReconstructs (s : DBState) : Prop :=
  ∀ r ∈ s.requests,
    requestHistory s r.id ≠ [] ∧
    (∀ h0, (requestHistory s r.id).head? = some h0 → h0.from_status = none) ∧
    (∀ hl, (requestHistory s r.id).getLast? = some hl → hl.to_status = r.status)

/-- Bookkeeping invariants the store maintains alongside C3's property:
request ids and history request-references stay below the id counter, and
request ids are unique (the primary key). -/
def wfState (s : DBState) : Prop :=
  (∀ r ∈ s.requests, r.id < s.next_request_id) ∧
  (∀ h ∈ s.histories, h.request_id < s.next_request_id) ∧
  (s.requests.map (fun r => r.id)).Nodup ∧
  historyReconstructs s

/-
  Small structural lemmas.
-/

theorem card_set_status_self (c : Card) (st : CardStatus) (h : c.status = st) :
    ({ c with status := st } : Card) = c := by
  cases c
  simp only at h
  simp [h]

theorem setCardStatus_self (cards : List Card) (cid : Nat) (st : CardStatus)
    (h : ∀ c ∈ cards, c.id = cid → c.status = st) :
    setCardStatus cards cid st = cards := by
  induction cards with
  | nil => rfl
  | cons c cs ih =>
      simp only [setCardStatus, List.map_cons] at ih ⊢
      congr 1
      · by_cases hc : c.id = cid
        · subst hc
          rw [if_pos rfl]
          exact card_set_status_self c st (h c (by simp) rfl)
        · simp [hc]
      · exact ih (fun d hd hdid => h d (by simp [hd]) hdid)

/-
  C4 — mark_sent.
-/

/-- C4 (counterexample): the source sets status SENT without inspecting
the prior status, so on a card that exists and is AVAILABLE (not
RESERVED) the call succeeds instead of failing with InvalidStateError. -/
theorem mark_sent_counterexample :
    cardA.status = CardStatus.available ∧
    getCard dbTwoCards.cards 1 = some cardA ∧
    mark_sent dbTwoCards 1 (some 9) =
      .ok ({ dbTwoCards with
               cards := setCardStatus dbTwoCards.cards 1 .sent,
               card_logs := dbTwoCards.card_logs ++
                 [{ card_id := 1, actor_id := some 9,
                    action := .send, note := none }] },
           { cardA with status := .sent }) :=
  ⟨rfl, rfl, rfl⟩

/-- C4 (amended): markSent(cardId, actorId) sets the status of the card to
SENT regardless of its prior status (AVAILABLE, RESERVED, SENT or
ARCHIVED) and appends one SEND inventory-log row; it fails with
NotFoundError exactly when no card with cardId exists, and it never
raises InvalidStateError. -/
theorem mark_sent_any_status (s : DBState) (cid : Nat) (actor : Option Nat) :
    (∀ card, getCard s.cards cid = some card →
      mark_sent s cid actor =
        .ok ({ s with
                 cards := setCardStatus s.cards cid .sent,
                 card_logs := s.card_logs ++
                   [{ card_id := cid, actor_id := actor,
                      action := .send, note := none }] },
             { card with status := .sent })) ∧
    (getCard s.cards cid = none →
      mark_sent s cid actor = .error .noResultFound) := by
  constructor
  · intro card h
    unfold mark_sent
    rw [h]
    rfl
  · intro h
    unfold mark_sent
    rw [h]

/-- C4 (witness): the amended theorem evaluated on the two-card fixture
at the AVAILABLE card with id 1. -/
theorem mark_sent_any_status_witness :
    mark_sent dbTwoCards 1 (some 9) =
      .ok ({ dbTwoCards with
               cards := setCardStatus dbTwoCards.cards 1 .sent,
               card_logs := dbTwoCards.card_logs ++
                 [{ card_id := 1, actor_id := some 9,
                    action := .send, note := none }] },
           { cardA with status := .sent }) :=
  (mark_sent_any_status dbTwoCards 1 (some 9)).1 cardA rfl

/-
  C5 — add_card.
-/

/-- C5 (counterexample): with a serial number supplied and amount = 0 the
call fails via the database check constraint ck_card_amount_positive (an
IntegrityError surfaced at flush), not via the service-level
ValidationError the claim names. -/
theorem add_card_counterexample :
    add_card emptyDB .asia 0 (some 1) none none (some ("SN1")) =
      .error (.integrityError .ck_card_amount_positive) ∧
    isValidationFailure
      (add_card emptyDB .asia 0 (some 1) none none (some ("SN1"))) = false :=
  ⟨rfl, rfl⟩

/-- C5 (amended): addCard fails and persists nothing (no card row, no log
row) whenever neither an image reference nor a serial number is supplied
(service-level ValidationError, raised before a session is opened), or the
amount is ≤ 0 (database check constraint ck_card_amount_positive, an
integrity error, not ValidationError), or the serial number is already
taken (unique constraint uq_card_serial); otherwise it creates a card with
status AVAILABLE and appends one ADD log entry in the same transaction. -/
theorem add_card_spec (s : DBState) (ct : CardType) (amount : Int)
    (actor : Option Nat) (ifid ipath sn : Option String) :
    (ifid = none → sn = none →
      add_card s ct amount actor ifid ipath sn = .error .validationError) ∧
    (¬(ifid = none ∧ sn = none) → amount ≤ 0 →
      add_card s ct amount actor ifid ipath sn =
        .error (.integrityError .ck_card_amount_positive)) ∧
    (¬(ifid = none ∧ sn = none) → 0 < amount →
      serialConflicts s.cards sn = false →
      add_card s ct amount actor ifid ipath sn =
        .ok ({ s with
                 cards := s.cards ++
                   [{ id := s.next_card_id, card_type := ct, amount := amount,
                      status := .available, image_file_id := ifid,
                      image_path := ipath, serial_number := sn,
                      added_by_id := actor }],
                 next_card_id := s.next_card_id + 1,
                 card_logs := s.card_logs ++
                   [{ card_id := s.next_card_id, actor_id := actor,
                      action := .add, note := none }] },
             { id := s.next_card_id, card_type := ct, amount := amount,
               status := .available, image_file_id := ifid,
               image_path := ipath, serial_number := sn,
               added_by_id := actor })) := by
  refine ⟨?_, ?_, ?_⟩
  · intro h1 h2
    unfold add_card
    rw [if_pos ⟨h1, h2⟩]
  · intro h hle
    unfold add_card
    rw [if_neg h, if_pos hle]
  · intro h hpos hconf
    unfold add_card
    rw [if_neg h, if_neg (by omega), if_neg (by simp [hconf])]
    rfl

/-- C5 (witness): the amended theorem evaluated on the empty store, once
on each error branch and once on the success branch. -/
theorem add_card_spec_witness :
    add_card emptyDB .asia 100 (some 1) none none none =
      .error .validationError ∧
    add_card emptyDB .asia 0 (some 1) none none (some ("SN2")) =
      .error (.integrityError .ck_card_amount_positive) ∧
    add_card emptyDB .asia 100 (some 1) none none (some ("SN2")) =
      .ok ({ emptyDB with
               cards := emptyDB.cards ++
                 [{ id := emptyDB.next_card_id, card_type := .asia,
                    amount := 100, status := .available,
                    image_file_id := none, image_path := none,
                    serial_number := some ("SN2"), added_by_id := some 1 }],
               next_card_id := emptyDB.next_card_id + 1,
               card_logs := emptyDB.card_logs ++
                 [{ card_id := emptyDB.next_card_id, actor_id := some 1,
                    action := .add, note := none }] },
           { id := emptyDB.next_card_id, card_type := .asia, amount := 100,
             status := .available, image_file_id := none, image_path := none,
             serial_number := some ("SN2"), added_by_id := some 1 }) :=
  ⟨(add_card_spec emptyDB .asia 100 (some 1) none none none).1 rfl rfl,
   (add_card_spec emptyDB .asia 0 (some 1) none none (some ("SN2"))).2.1
     (by simp) (by omega),
   (add_card_spec emptyDB .asia 100 (some 1) none none (some ("SN2"))).2.2
     (by simp) (by omega) rfl⟩

/-
  C9 — restore_card on an already-AVAILABLE card.
-/

/-- C9 (counterexample): card 1 of the fixture is already AVAILABLE, its
inventory log is empty, yet restore_card appends a RESTORE log row — the
persisted log is not left unchanged by the repeated call. -/
theorem restore_card_counterexample :
    cardA.status = CardStatus.available ∧
    dbTwoCards.card_logs = [] ∧
    restore_card dbTwoCards 1 (some 9) =
      .ok ({ dbTwoCards with
               card_logs := [{ card_id := 1, actor_id := some 9,
                               action := .restore, note := none }] },
           cardA) :=
  ⟨rfl, rfl, rfl⟩

/-- C9 (amended): restoreCard on a card that is already AVAILABLE raises
no error and leaves the card rows (and every other table) unchanged, but
it is not a complete no-op on persisted state: each call appends one
RESTORE row to the card inventory log. -/
theorem restore_card_on_available (s : DBState) (cid : Nat)
    (actor : Option Nat) (card : Card)
    (hfind : getCard s.cards cid = some card)
    (hall : ∀ c ∈ s.cards, c.id = cid → c.status = CardStatus.available) :
    restore_card s cid actor =
      .ok ({ s with card_logs := s.card_logs ++
               [{ card_id := cid, actor_id := actor,
                  action := .restore, note := none }] },
           card) := by
  have hmem : card ∈ s.cards := List.mem_of_find?_eq_some hfind
  have hid : card.id = cid := by
    have := List.find?_some hfind
    simpa using this
  have hst : card.status = CardStatus.available := hall card hmem hid
  have hcards : setCardStatus s.cards cid .available = s.cards :=
    setCardStatus_self _ _ _ hall
  unfold restore_card
  rw [hfind]
  show Except.ok
      (card_log { s with cards := setCardStatus s.cards cid CardStatus.available }
        cid InventoryAction.restore actor none,
       ({ card with status := CardStatus.available } : Card)) = _
  rw [hcards, card_set_status_self card _ hst]
  rfl

/-- C9 (witness): the amended theorem evaluated on the two-card fixture at
the AVAILABLE card with id 1. -/
theorem restore_card_on_available_witness :
    restore_card dbTwoCards 1 (some 9) =
      .ok ({ dbTwoCards with
               card_logs := dbTwoCards.card_logs ++
                 [{ card_id := 1, actor_id := some 9,
                    action := .restore, note := none }] },
           cardA) :=
  restore_card_on_available dbTwoCards 1 (some 9) cardA rfl (by decide)

/-
  C1 — take_first_available: ordering of the skip-locked select.
-/

theorem minByIdAux_mem (b : Card) (cs : List Card) :
    minByIdAux b cs = b ∨ minByIdAux b cs ∈ cs := by
  induction cs generalizing b with
  | nil => exact .inl rfl
  | cons c cs ih =>
      have hstep : minByIdAux b (c :: cs) =
          minByIdAux (if c.id < b.id then c else b) cs := rfl
      rcases ih (if c.id < b.id then c else b) with h | h
      · by_cases hc : c.id < b.id
        · right
          rw [hstep, h, if_pos hc]
          exact List.mem_cons_self c cs
        · left
          rw [hstep, h, if_neg hc]
      · right
        rw [hstep]
        exact List.mem_cons_of_mem c h

theorem minByIdAux_id_le (b : Card) (cs : List Card) :
    (minByIdAux b cs).id ≤ b.id := by
  induction cs generalizing b with
  | nil => exact le_refl _
  | cons c cs ih =>
      have hstep : minByIdAux b (c :: cs) =
          minByIdAux (if c.id < b.id then c else b) cs := rfl
      rw [hstep]
      by_cases hc : c.id < b.id
      · rw [if_pos hc]
        exact le_trans (ih c) (le_of_lt hc)
      · rw [if_neg hc]
        exact ih b

theorem minByIdAux_le_of_mem (b : Card) (cs : List Card) (d : Card)
    (hd : d ∈ cs) : (minByIdAux b cs).id ≤ d.id := by
  induction cs generalizing b with
  | nil => cases hd
  | cons c cs ih =>
      have hstep : minByIdAux b (c :: cs) =
          minByIdAux (if c.id < b.id then c else b) cs := rfl
      rw [hstep]
      rcases List.mem_cons.mp hd with h | h
      · subst h
        by_cases hc : d.id < b.id
        · rw [if_pos hc]
          exact minByIdAux_id_le d cs
        · rw [if_neg hc]
          exact le_trans (minByIdAux_id_le b cs) (Nat.le_of_not_lt hc)
      · exact ih _ h

theorem firstByIdOrder_none (cs : List Card)
    (h : firstByIdOrder cs = none) : cs = [] := by
  cases cs with
  | nil => rfl
  | cons c t => simp [firstByIdOrder] at h

theorem firstByIdOrder_mem (cs : List Card) (c : Card)
    (h : firstByIdOrder cs = some c) : c ∈ cs := by
  cases cs with
  | nil => cases h
  | cons a t =>
      simp only [firstByIdOrder, Option.some.injEq] at h
      subst h
      rcases minByIdAux_mem a t with h' | h'
      · rw [h']
        exact List.mem_cons_self a t
      · exact List.mem_cons_of_mem a h'

theorem firstByIdOrder_min (cs : List Card) (c : Card)
    (h : firstByIdOrder cs = some c) (d : Card) (hd : d ∈ cs) :
    c.id ≤ d.id := by
  cases cs with
  | nil => cases h
  | cons a t =>
      simp only [firstByIdOrder, Option.some.injEq] at h
      subst h
      rcases List.mem_cons.mp hd with h' | h'
      · subst h'
        exact minByIdAux_id_le d t
      · exact minByIdAux_le_of_mem a t d h'

theorem mem_eligible (s : DBState) (ct : CardType) (amount : Int)
    (locked : List Nat) (c : Card) :
    c ∈ eligibleCards s ct amount locked ↔
      c ∈ s.cards ∧ cardMatches ct amount c = true ∧ c.id ∉ locked := by
  simp [eligibleCards, List.mem_filter, and_assoc]

/-- C1: the allocation select. Whenever some card of the requested type
and amount is AVAILABLE and not locked by another in-flight transaction,
take_first_available reserves and returns the oldest such card (smallest
id among the unlocked matches), appending exactly one RESERVE
inventory-log row in the same transaction; when every AVAILABLE match is
locked (in particular when none exists), it fails with NotFoundError and,
the transaction rolling back, no persisted state changes. -/
theorem take_first_available_spec (s : DBState) (ct : CardType)
    (amount : Int) (actor : Option Nat) (locked : List Nat) :
    ((∃ c ∈ s.cards, cardMatches ct amount c = true ∧ c.id ∉ locked) →
      ∃ c ∈ s.cards, cardMatches ct amount c = true ∧ c.id ∉ locked ∧
        (∀ d ∈ s.cards, cardMatches ct amount d = true → d.id ∉ locked →
          c.id ≤ d.id) ∧
        take_first_available s ct amount actor locked =
          .ok ({ s with
                   cards := setCardStatus s.cards c.id .reserved,
                   card_logs := s.card_logs ++
                     [{ card_id := c.id, actor_id := actor,
                        action := .reserve, note := none }] },
               { c with status := .reserved })) ∧
    ((∀ c ∈ s.cards, cardMatches ct amount c = true → c.id ∈ locked) →
      take_first_available s ct amount actor locked =
        .error .noResultFound) := by
  constructor
  · rintro ⟨c0, hc0mem, hc0m, hc0l⟩
    have hc0e : c0 ∈ eligibleCards s ct amount locked :=
      (mem_eligible s ct amount locked c0).mpr ⟨hc0mem, hc0m, hc0l⟩
    cases hfo : firstByIdOrder (eligibleCards s ct amount locked) with
    | none =>
        rw [firstByIdOrder_none _ hfo] at hc0e
        cases hc0e
    | some c =>
        obtain ⟨hmem, hm, hl⟩ :=
          (mem_eligible s ct amount locked c).mp (firstByIdOrder_mem _ _ hfo)
        refine ⟨c, hmem, hm, hl, ?_, ?_⟩
        · intro d hdmem hdm hdl
          exact firstByIdOrder_min _ _ hfo d
            ((mem_eligible s ct amount locked d).mpr ⟨hdmem, hdm, hdl⟩)
        · unfold take_first_available
          rw [hfo]
          rfl
  · intro hall
    have hnil : eligibleCards s ct amount locked = [] := by
      apply List.filter_eq_nil_iff.mpr
      intro c hc
      by_cases hm : cardMatches ct amount c = true
      · simp [hm, hall c hc hm]
      · simp [Bool.and_eq_true, hm]
    unfold take_first_available
    rw [hnil]
    rfl

/-- C1 (witness): on the two-card fixture the select returns card 1, the
older of the two AVAILABLE asia/5000 cards. -/
theorem take_first_available_spec_witness :
    (∃ c ∈ dbTwoCards.cards,
      cardMatches .asia 5000 c = true ∧ c.id ∉ ([] : List Nat)) ∧
    (∃ c ∈ dbTwoCards.cards,
      cardMatches .asia 5000 c = true ∧ c.id ∉ ([] : List Nat) ∧
      (∀ d ∈ dbTwoCards.cards, cardMatches .asia 5000 d = true →
        d.id ∉ ([] : List Nat) → c.id ≤ d.id) ∧
      take_first_available dbTwoCards .asia 5000 (some 20) [] =
        .ok ({ dbTwoCards with
                 cards := setCardStatus dbTwoCards.cards c.id .reserved,
                 card_logs := dbTwoCards.card_logs ++
                   [{ card_id := c.id, actor_id := some 20,
                      action := .reserve, note := none }] },
             { c with status := .reserved })) :=
  have hex : ∃ c ∈ dbTwoCards.cards,
      cardMatches .asia 5000 c = true ∧ c.id ∉ ([] : List Nat) :=
    ⟨cardA, by decide, by decide, by simp⟩
  ⟨hex, (take_first_available_spec dbTwoCards .asia 5000 (some 20) []).1 hex⟩

/-
  C2 — compensation contract of the approval flows.
-/

/-- C2: the compensation contract is broken by the manager "send" fast
path. On the fixture (one PENDING_MANAGER request, manager 20 allowed to
send directly, requester reachable, delivery failing), the fast path of
handle_manager_decision reserves card 1 and then surfaces the delivery
error WITHOUT calling restoreCard: the outcome records restored = false,
the card is left RESERVED, and the inventory log holds only the RESERVE
row (no RESTORE row). The direct admin send and the direct responsible
send, run on the same store with the same delivery failure, do restore
the reserved card before surfacing the error, which is the behaviour the
specification demands of every caller. -/
theorem manager_send_flow_leaks_reservation :
    (manager_send_flow dbTwoCards 1 20 5000 true true false).2 =
      .failedAfterReserve 1 false ∧
    getCard (manager_send_flow dbTwoCards 1 20 5000 true true false).1.cards
      1 = some ({ cardA with status := .reserved }) ∧
    ((manager_send_flow dbTwoCards 1 20 5000 true true false).1.card_logs.map
      (fun l => l.action)) = [.reserve] ∧
    (admin_send_flow dbTwoCards 10 (some 30) .asia 5000 false 9).2 =
      .failedAfterReserve 1 true ∧
    getCard (admin_send_flow dbTwoCards 10 (some 30) .asia 5000
      false 9).1.cards 1 = some cardA ∧
    (responsible_send_flow dbTwoCards 10 20 .asia 5000 false 9).2 =
      .failedAfterReserve 1 true ∧
    getCard (responsible_send_flow dbTwoCards 10 20 .asia 5000
      false 9).1.cards 1 = some cardA :=
  ⟨rfl, rfl, rfl, rfl, rfl, rfl, rfl⟩

/-
  C8 — reserve → restore round trip.
-/

theorem cardMatches_props (ct : CardType) (amount : Int) (c : Card)
    (h : cardMatches ct amount c = true) :
    c.card_type = ct ∧ c.amount = amount ∧ c.status = CardStatus.available := by
  simp only [cardMatches, Bool.and_eq_true, decide_eq_true_eq] at h
  exact ⟨h.1.1, h.1.2, h.2⟩

theorem getCard_eq_some_of_mem_nodup (cards : List Card) (c : Card)
    (hmem : c ∈ cards) (hnd : (cards.map (fun x => x.id)).Nodup) :
    getCard cards c.id = some c := by
  induction cards with
  | nil => cases hmem
  | cons a t ih =>
      rcases List.mem_cons.mp hmem with h | h
      · subst h
        unfold getCard
        rw [List.find?_cons_of_pos _ (by simp)]
      · have hat : a.id ∉ t.map (fun x => x.id) := (List.nodup_cons.mp hnd).1
        have hne : ¬ (a.id = c.id) := by
          intro he
          exact hat (he ▸ List.mem_map_of_mem (fun x => x.id) h)
        unfold getCard at ih ⊢
        rw [List.find?_cons_of_neg _ (by simp [hne])]
        exact ih h (List.nodup_cons.mp hnd).2

theorem getCard_setCardStatus (cards : List Card) (cid : Nat)
    (st : CardStatus) :
    getCard (setCardStatus cards cid st) cid =
      (getCard cards cid).map (fun x => { x with status := st }) := by
  induction cards with
  | nil => rfl
  | cons a t ih =>
      simp only [setCardStatus, List.map_cons, getCard] at ih ⊢
      by_cases hc : a.id = cid
      · rw [if_pos hc, List.find?_cons_of_pos _ (by simp [hc]),
            List.find?_cons_of_pos _ (by simp [hc])]
        rfl
      · rw [if_neg hc, List.find?_cons_of_neg _ (by simp [hc]),
            List.find?_cons_of_neg _ (by simp [hc])]
        exact ih

theorem setCardStatus_twice (cards : List Card) (cid : Nat)
    (st1 st2 : CardStatus) :
    setCardStatus (setCardStatus cards cid st1) cid st2 =
      setCardStatus cards cid st2 := by
  induction cards with
  | nil => rfl
  | cons a t ih =>
      simp only [setCardStatus, List.map_cons] at ih ⊢
      congr 1
      · by_cases hc : a.id = cid
        · rw [if_pos hc]
          show (if ({ a with status := st1 } : Card).id = cid
              then ({ { a with status := st1 } with status := st2 } : Card)
              else { a with status := st1 }) = _
          rw [if_pos hc, if_pos hc]
        · simp [hc]

/-- The allocation select, rewritten as an equation once the smallest-id
eligible row is known. -/
theorem take_first_available_eq (s : DBState) (ct : CardType) (amount : Int)
    (actor : Option Nat) (locked : List Nat) (c0 : Card)
    (h : firstByIdOrder (eligibleCards s ct amount locked) = some c0) :
    take_first_available s ct amount actor locked =
      .ok (card_log { s with cards := setCardStatus s.cards c0.id .reserved }
             c0.id .reserve actor none,
           { c0 with status := .reserved }) := by
  unfold take_first_available
  rw [h]

/-- restore_card, rewritten as an equation once the row fetch is known. -/
theorem restore_card_eq (s : DBState) (cid : Nat) (actor : Option Nat)
    (card : Card) (h : getCard s.cards cid = some card) :
    restore_card s cid actor =
      .ok (card_log { s with cards := setCardStatus s.cards cid .available }
             cid .restore actor none,
           { card with status := .available }) := by
  unfold restore_card
  rw [h]

/-- C8: round-trip law. After take_first_available reserves card `c`,
restore_card on `c` succeeds and returns it to AVAILABLE, the card table
is exactly as before the reservation, count_available is back at its
pre-reservation value, and a subsequent take_first_available with the same
(type, amount) again returns that very card. The id-uniqueness hypothesis
is the primary-key constraint on the card table. -/
theorem reserve_restore_roundtrip (s : DBState) (ct : CardType)
    (amount : Int) (a1 a2 a3 : Option Nat) (s1 : DBState) (c : Card)
    (hnd : (s.cards.map (fun x => x.id)).Nodup)
    (htake : take_first_available s ct amount a1 [] = .ok (s1, c)) :
    ∃ s2, restore_card s1 c.id a2 = .ok (s2, { c with status := .available }) ∧
      s2.cards = s.cards ∧
      getCard s2.cards c.id = some ({ c with status := .available }) ∧
      count_available s2 ct amount = count_available s ct amount ∧
      ∃ s3, take_first_available s2 ct amount a3 [] = .ok (s3, c) := by
  unfold take_first_available at htake
  cases hfo : firstByIdOrder (eligibleCards s ct amount []) with
  | none => rw [hfo] at htake; cases htake
  | some c0 =>
      rw [hfo] at htake
      simp only [Except.ok.injEq, Prod.mk.injEq] at htake
      obtain ⟨hs1, hcc⟩ := htake
      obtain ⟨hc0mem, hc0m, -⟩ :=
        (mem_eligible s ct amount [] c0).mp (firstByIdOrder_mem _ _ hfo)
      obtain ⟨-, -, hc0st⟩ := cardMatches_props ct amount c0 hc0m
      have hall : ∀ d ∈ s.cards, d.id = c0.id →
          d.status = CardStatus.available := by
        intro d hd hid
        have hdc : d = c0 := List.inj_on_of_nodup_map hnd hd hc0mem hid
        rw [hdc]
        exact hc0st
      have hgc : getCard s.cards c0.id = some c0 :=
        getCard_eq_some_of_mem_nodup s.cards c0 hc0mem hnd
      subst hs1
      subst hcc
      have hget1 : getCard
          (card_log { s with cards := setCardStatus s.cards c0.id .reserved }
            c0.id .reserve a1 none).cards c0.id =
          some ({ c0 with status := .reserved }) := by
        show getCard (setCardStatus s.cards c0.id .reserved) c0.id = _
        rw [getCard_setCardStatus, hgc]
        rfl
      have hres := restore_card_eq
        (card_log { s with cards := setCardStatus s.cards c0.id .reserved }
          c0.id .reserve a1 none)
        c0.id a2 ({ c0 with status := .reserved }) hget1
      refine ⟨_, hres, ?_, ?_, ?_, ?_⟩
      case _ => -- card table restored
        show setCardStatus (setCardStatus s.cards c0.id .reserved)
            c0.id .available = s.cards
        rw [setCardStatus_twice]
        exact setCardStatus_self s.cards c0.id .available hall
      case _ =>
        show getCard (setCardStatus (setCardStatus s.cards c0.id .reserved)
            c0.id .available) c0.id = some ({ c0 with status := .available })
        rw [setCardStatus_twice,
            setCardStatus_self s.cards c0.id .available hall, hgc,
            card_set_status_self c0 .available hc0st]
      case _ =>
        show count_available { (card_log { s with
            cards := setCardStatus s.cards c0.id .reserved }
            c0.id .reserve a1 none) with
            cards := setCardStatus (setCardStatus s.cards c0.id .reserved)
              c0.id .available,
            card_logs := _ } ct amount = count_available s ct amount
        unfold count_available
        rw [setCardStatus_twice,
            setCardStatus_self s.cards c0.id .available hall]
      case _ =>
        have hcards2 : (card_log { (card_log { s with
            cards := setCardStatus s.cards c0.id .reserved }
              c0.id .reserve a1 none) with
            cards := setCardStatus (setCardStatus s.cards c0.id .reserved)
              c0.id .available }
            c0.id .restore a2 none).cards = s.cards := by
          show setCardStatus (setCardStatus s.cards c0.id .reserved)
              c0.id .available = s.cards
          rw [setCardStatus_twice]
          exact setCardStatus_self s.cards c0.id .available hall
        have hfo2 : firstByIdOrder (eligibleCards
            (card_log { (card_log { s with
              cards := setCardStatus s.cards c0.id .reserved }
                c0.id .reserve a1 none) with
              cards := setCardStatus (setCardStatus s.cards c0.id .reserved)
                c0.id .available }
              c0.id .restore a2 none) ct amount []) = some c0 := by
          unfold eligibleCards
          rw [hcards2]
          exact hfo
        exact ⟨_, take_first_available_eq _ ct amount a3 [] c0 hfo2⟩

/-- C8 (witness): the round trip evaluated on the two-card fixture. -/
theorem reserve_restore_roundtrip_witness :
    ∃ s2, restore_card
        (card_log { dbTwoCards with
          cards := setCardStatus dbTwoCards.cards 1 .reserved }
          1 .reserve (some 20) none)
        1 (some 20) =
      .ok (s2, { cardA with status := .available }) ∧
      s2.cards = dbTwoCards.cards ∧
      getCard s2.cards 1 = some ({ cardA with status := .available }) ∧
      count_available s2 .asia 5000 = count_available dbTwoCards .asia 5000 ∧
      ∃ s3, take_first_available s2 .asia 5000 (some 20) [] =
        .ok (s3, { cardA with status := .reserved }) := by
  have h := reserve_restore_roundtrip dbTwoCards .asia 5000
    (some 20) (some 20) (some 20)
    (card_log { dbTwoCards with
      cards := setCardStatus dbTwoCards.cards 1 .reserved }
      1 .reserve (some 20) none)
    ({ cardA with status := .reserved }) (by decide) rfl
  exact h

/-
  C6 — role-based routing at request creation.
-/

/-- C6: at creation, routing follows the requester's role. A USER
requester yields a request whose responsible is the requester's manager
and whose status starts PENDING_MANAGER; with no manager reference the
handler aborts before any service call, so nothing is persisted. A
RESPONSIBLE requester is routed to PENDING_ACCOUNTING with themself as
responsible; an ADMIN requester to PENDING_ACCOUNTING with no
responsible — both skipping manager review. -/
theorem process_request_routing (s : DBState) (u : UserRec) (amount : Int)
    (rt : RequestType) (ct : Option CardType) (hamt : 0 < amount) :
    (u.role = .user → u.manager_id = none →
      process_request s u amount rt ct =
        .error (.aborted .noResponsibleConfigured)) ∧
    (∀ m, u.role = .user → u.manager_id = some m →
      process_request s u amount rt ct =
        .ok (afterCreate s
              (freshRequest s u.id (some m) amount rt .pending_manager ct) none,
             freshRequest s u.id (some m) amount rt .pending_manager ct)) ∧
    (u.role = .responsible →
      process_request s u amount rt ct =
        .ok (afterCreate s
              (freshRequest s u.id (some u.id) amount rt .pending_accounting ct)
              none,
             freshRequest s u.id (some u.id) amount rt .pending_accounting ct)) ∧
    (u.role = .admin →
      process_request s u amount rt ct =
        .ok (afterCreate s
              (freshRequest s u.id none amount rt .pending_accounting ct) none,
             freshRequest s u.id none amount rt .pending_accounting ct)) := by
  have hnle : ¬ amount ≤ 0 := by omega
  refine ⟨?_, ?_, ?_, ?_⟩
  · intro hrole hmgr
    unfold process_request
    rw [if_neg hnle, hrole, hmgr]
  · intro m hrole hmgr
    unfold process_request
    rw [if_neg hnle, hrole, hmgr]
    show (match create_request s u.id (some m) amount rt .pending_manager
        none ct with
      | Except.error e => Except.error (FlowError.db e)
      | Except.ok r => Except.ok r) = _
    unfold create_request
    rw [if_neg hnle]
    rfl
  · intro hrole
    unfold process_request
    rw [if_neg hnle, hrole]
    show (match create_request s u.id (some u.id) amount rt
        .pending_accounting none ct with
      | Except.error e => Except.error (FlowError.db e)
      | Except.ok r => Except.ok r) = _
    unfold create_request
    rw [if_neg hnle]
    rfl
  · intro hrole
    unfold process_request
    rw [if_neg hnle, hrole]
    show (match create_request s u.id none amount rt
        .pending_accounting none ct with
      | Except.error e => Except.error (FlowError.db e)
      | Except.ok r => Except.ok r) = _
    unfold create_request
    rw [if_neg hnle]
    rfl

/-- C6 (witness): the routing theorem evaluated on all four requester
shapes over the fixture store. -/
theorem process_request_routing_witness :
    (process_request dbTwoCards userNoMgr 5000 .fixed none =
      .error (.aborted .noResponsibleConfigured)) ∧
    (process_request dbTwoCards userU 5000 .fixed (some .asia) =
      .ok (afterCreate dbTwoCards
            (freshRequest dbTwoCards userU.id (some 20) 5000 .fixed
              .pending_manager (some .asia)) none,
           freshRequest dbTwoCards userU.id (some 20) 5000 .fixed
             .pending_manager (some .asia))) ∧
    (process_request dbTwoCards userR 5000 .fixed none =
      .ok (afterCreate dbTwoCards
            (freshRequest dbTwoCards userR.id (some userR.id) 5000 .fixed
              .pending_accounting none) none,
           freshRequest dbTwoCards userR.id (some userR.id) 5000 .fixed
             .pending_accounting none)) ∧
    (process_request dbTwoCards userA 5000 .fixed none =
      .ok (afterCreate dbTwoCards
            (freshRequest dbTwoCards userA.id none 5000 .fixed
              .pending_accounting none) none,
           freshRequest dbTwoCards userA.id none 5000 .fixed
             .pending_accounting none)) :=
  ⟨(process_request_routing dbTwoCards userNoMgr 5000 .fixed none
      (by omega)).1 rfl rfl,
   (process_request_routing dbTwoCards userU 5000 .fixed (some .asia)
      (by omega)).2.1 20 rfl rfl,
   (process_request_routing dbTwoCards userR 5000 .fixed none
      (by omega)).2.2.1 rfl,
   (process_request_routing dbTwoCards userA 5000 .fixed none
      (by omega)).2.2.2 rfl⟩

/-
  C7 — set_status is a total, faithful recorder.
-/

/-- C7: for every existing request and every target status (terminal
states included), set_status succeeds: it never rejects a transition, sets
the status, refreshes updated_at, and appends exactly one history row with
from_status = the status held immediately before the call and to_status =
the new status; it fails with NotFoundError exactly when no request with
the given id exists. -/
theorem set_status_total_recorder (s : DBState) (rid : Nat)
    (actor : Option Nat) (st : RequestStatus) (note : Option String) :
    (∀ req, getRequest s.requests rid = some req →
      set_status s rid actor st note =
        .ok ({ s with
                 requests := updateRequest s.requests rid
                   (fun r => { r with status := st, updated_at := s.clock }),
                 clock := s.clock + 1,
                 histories := s.histories ++
                   [{ request_id := rid, actor_id := actor,
                      from_status := some req.status, to_status := st,
                      note := note }] },
             { req with status := st, updated_at := s.clock })) ∧
    (getRequest s.requests rid = none →
      set_status s rid actor st note = .error .noResultFound) := by
  constructor
  · intro req h
    unfold set_status
    rw [h]
    rfl
  · intro h
    unfold set_status
    rw [h]

/-- C7 (witness): the theorem evaluated on the fixture request, driving it
out of the terminal-looking transition PENDING_MANAGER→APPROVED and, by
the same token, accepting any pair. -/
theorem set_status_total_recorder_witness :
    set_status dbTwoCards 1 (some 20) .approved none =
      .ok ({ dbTwoCards with
               requests := updateRequest dbTwoCards.requests 1
                 (fun r =>
                   { r with status := .approved, updated_at := dbTwoCards.clock }),
               clock := dbTwoCards.clock + 1,
               histories := dbTwoCards.histories ++
                 [{ request_id := 1, actor_id := some 20,
                    from_status := some reqP.status, to_status := .approved,
                    note := none }] },
           { reqP with status := .approved, updated_at := dbTwoCards.clock }) :=
  (set_status_total_recorder dbTwoCards 1 (some 20) .approved none).1 reqP rfl

/-
  C10 — set_approver frame.
-/

/-- C10: set_approver on an existing request rewrites only the approver_id
field plus the onupdate-refreshed updated_at; it appends no history row
and leaves cards, card logs and all other request fields unchanged; and
it is the only request-mutating operation with no audit record: on the
same store, successful create_request, set_status and attach_card each
grow the history table by one row while set_approver leaves it intact. -/
theorem set_approver_frame (s : DBState) (rid : Nat) (aid : Nat) :
    (∀ req, getRequest s.requests rid = some req →
      set_approver s rid aid =
        .ok ({ s with
                 requests := updateRequest s.requests rid
                   (fun r =>
                     { r with approver_id := some aid, updated_at := s.clock }),
                 clock := s.clock + 1 },
             { req with approver_id := some aid, updated_at := s.clock })) ∧
    (∀ s' q, set_approver s rid aid = .ok (s', q) →
      s'.histories = s.histories ∧ s'.cards = s.cards ∧
      s'.card_logs = s.card_logs) ∧
    (∀ requester resp amount rt st note ctype s' q,
      create_request s requester resp amount rt st note ctype = .ok (s', q) →
      s'.histories.length = s.histories.length + 1) ∧
    (∀ r a st note s' q, set_status s r a st note = .ok (s', q) →
      s'.histories.length = s.histories.length + 1) ∧
    (∀ r cid a s' q, attach_card s r cid a = .ok (s', q) →
      s'.histories.length = s.histories.length + 1) := by
  refine ⟨?_, ?_, ?_, ?_, ?_⟩
  · intro req h
    unfold set_approver
    rw [h]
  · intro s' q h
    unfold set_approver at h
    cases hm : getRequest s.requests rid with
    | none => rw [hm] at h; cases h
    | some req =>
        rw [hm] at h
        simp only [Except.ok.injEq, Prod.mk.injEq] at h
        obtain ⟨h1, -⟩ := h
        subst h1
        exact ⟨rfl, rfl, rfl⟩
  · intro requester resp amount rt st note ctype s' q h
    unfold create_request at h
    split at h
    · cases h
    · simp only [Except.ok.injEq, Prod.mk.injEq] at h
      obtain ⟨h1, -⟩ := h
      subst h1
      simp [request_log]
  · intro r a st note s' q h
    unfold set_status at h
    cases hm : getRequest s.requests r with
    | none => rw [hm] at h; cases h
    | some req =>
        rw [hm] at h
        simp only [Except.ok.injEq, Prod.mk.injEq] at h
        obtain ⟨h1, -⟩ := h
        subst h1
        simp [request_log]
  · intro r cid a s' q h
    unfold attach_card at h
    cases hm : getRequest s.requests r with
    | none => rw [hm] at h; cases h
    | some req =>
        rw [hm] at h
        simp only [Except.ok.injEq, Prod.mk.injEq] at h
        obtain ⟨h1, -⟩ := h
        subst h1
        simp [request_log]

/-- C10 (witness): the frame theorem evaluated on the fixture: the
approver write keeps the history table intact, while a create_request, a
set_status and an attach_card on the same store each add one row. -/
theorem set_approver_frame_witness :
    (set_approver dbTwoCards 1 33 =
      .ok ({ dbTwoCards with
               requests := updateRequest dbTwoCards.requests 1
                 (fun r =>
                   { r with approver_id := some 33, updated_at := dbTwoCards.clock }),
               clock := dbTwoCards.clock + 1 },
           { reqP with
               approver_id := some 33, updated_at := dbTwoCards.clock })) ∧
    (match set_approver dbTwoCards 1 33 with
     | .ok (s', _) => s'.histories = dbTwoCards.histories
     | .error _ => False) ∧
    (match create_request dbTwoCards 11 none 100 .fixed .pending_accounting
        none none with
     | .ok (s', _) => s'.histories.length = dbTwoCards.histories.length + 1
     | .error _ => False) ∧
    (match set_status dbTwoCards 1 (some 20) .rejected none with
     | .ok (s', _) => s'.histories.length = dbTwoCards.histories.length + 1
     | .error _ => False) ∧
    (match attach_card dbTwoCards 1 2 (some 20) with
     | .ok (s', _) => s'.histories.length = dbTwoCards.histories.length + 1
     | .error _ => False) := by
  have t := set_approver_frame dbTwoCards 1 33
  refine ⟨t.1 reqP rfl, ?_, ?_, ?_, ?_⟩
  · obtain ⟨s', q, h⟩ :
        ∃ s' q, set_approver dbTwoCards 1 33 = .ok (s', q) := ⟨_, _, rfl⟩
    rw [h]
    exact (t.2.1 s' q h).1
  · obtain ⟨s', q, h⟩ :
        ∃ s' q, create_request dbTwoCards 11 none 100 .fixed
          .pending_accounting none none = .ok (s', q) := ⟨_, _, rfl⟩
    rw [h]
    exact t.2.2.1 11 none 100 .fixed .pending_accounting none none s' q h
  · obtain ⟨s', q, h⟩ :
        ∃ s' q, set_status dbTwoCards 1 (some 20) .rejected none =
          .ok (s', q) := ⟨_, _, rfl⟩
    rw [h]
    exact t.2.2.2.1 1 (some 20) .rejected none s' q h
  · obtain ⟨s', q, h⟩ :
        ∃ s' q, attach_card dbTwoCards 1 2 (some 20) = .ok (s', q) :=
      ⟨_, _, rfl⟩
    rw [h]
    exact t.2.2.2.2 1 2 (some 20) s' q h

/-
  C3 — history reconstructs the current status.
-/

theorem head_append_of_ne_nil (l₁ l₂ : List RequestStatusHistory)
    (h : l₁ ≠ []) : (l₁ ++ l₂).head? = l₁.head? := by
  cases l₁ with
  | nil => exact absurd rfl h
  | cons a t => rfl

theorem updateRequest_ids (l : List RechargeRequest) (rid : Nat)
    (f : RechargeRequest → RechargeRequest) (hfid : ∀ r, (f r).id = r.id) :
    (updateRequest l rid f).map (fun r => r.id) = l.map (fun r => r.id) := by
  unfold updateRequest
  rw [List.map_map]
  apply List.map_eq_map_iff.mpr
  intro r _
  by_cases hc : r.id = rid
  · simp [Function.comp, hc, hfid]
  · simp [Function.comp, hc]

/-- Inserting a fresh request together with its initial history row (what
a successful create_request does) preserves the invariant. -/
theorem wfState_insert (s : DBState) (req : RechargeRequest)
    (row : RequestStatusHistory)
    (hreqid : req.id = s.next_request_id)
    (hrowid : row.request_id = s.next_request_id)
    (hfrom : row.from_status = none)
    (hto : row.to_status = req.status)
    (hwf : wfState s) :
    wfState { s with requests := s.requests ++ [req],
                     next_request_id := s.next_request_id + 1,
                     clock := s.clock + 1,
                     histories := s.histories ++ [row] } := by
  obtain ⟨hbound, hhbound, hnd, hrec⟩ := hwf
  refine ⟨?_, ?_, ?_, ?_⟩
  · intro r hr
    rcases List.mem_append.mp hr with h | h
    · exact Nat.lt_succ_of_lt (hbound r h)
    · have : r = req := List.mem_singleton.mp h
      subst this
      rw [hreqid]
      exact Nat.lt_succ_self _
  · intro h hh
    rcases List.mem_append.mp hh with h' | h'
    · exact Nat.lt_succ_of_lt (hhbound h h')
    · have : h = row := List.mem_singleton.mp h'
      subst this
      rw [hrowid]
      exact Nat.lt_succ_self _
  · show ((s.requests ++ [req]).map (fun r => r.id)).Nodup
    rw [List.map_append]
    refine List.Nodup.append hnd (by simp) ?_
    intro x hx hx'
    obtain ⟨r, hr, hrx⟩ := List.mem_map.mp hx
    have hx2 : x = req.id := by simpa using hx'
    have hlt : r.id < s.next_request_id := hbound r hr
    rw [hrx, hx2, hreqid] at hlt
    exact Nat.lt_irrefl _ hlt
  · intro r hr
    have hH : ∀ x : Nat,
        requestHistory
          { s with
              requests := s.requests ++ [req],
              next_request_id := s.next_request_id + 1,
              clock := s.clock + 1,
              histories := s.histories ++ [row] } x =
        requestHistory s x ++
          [row].filter (fun h => decide (h.request_id = x)) := by
      intro x
      show (s.histories ++ [row]).filter (fun h => decide (h.request_id = x)) =
        requestHistory s x ++ [row].filter (fun h => decide (h.request_id = x))
      rw [List.filter_append]
      rfl
    rcases List.mem_append.mp hr with h | h
    · have hne : (decide (row.request_id = r.id)) = false := by
        simp only [decide_eq_false_iff_not]
        rw [hrowid]
        intro he
        exact Nat.lt_irrefl _ (he ▸ hbound r h)
      have hHx := hH r.id
      rw [show [row].filter (fun h => decide (h.request_id = r.id)) = []
            from by simp [List.filter, hne],
          List.append_nil] at hHx
      obtain ⟨h1, h2, h3⟩ := hrec r h
      exact ⟨by rw [hHx]; exact h1,
             fun h0 hh0 => h2 h0 (by rw [hHx] at hh0; exact hh0),
             fun hl hhl => h3 hl (by rw [hHx] at hhl; exact hhl)⟩
    · obtain rfl := List.mem_singleton.mp h
      have hold : requestHistory s r.id = [] := by
        apply List.filter_eq_nil_iff.mpr
        intro hh hhmem
        simp only [decide_eq_true_eq]
        intro he
        rw [hreqid] at he
        exact Nat.lt_irrefl _ (he ▸ hhbound hh hhmem)
      have htr : (decide (row.request_id = r.id)) = true := by
        simp only [decide_eq_true_eq]
        rw [hrowid, hreqid]
      have hHx := hH r.id
      rw [hold,
          show [row].filter (fun h => decide (h.request_id = r.id)) = [row]
            from by simp [List.filter, htr],
          List.nil_append] at hHx
      refine ⟨by rw [hHx]; simp, ?_, ?_⟩
      · intro h0 hh0
        rw [hHx] at hh0
        simp only [List.head?_cons, Option.some.injEq] at hh0
        rw [← hh0]
        exact hfrom
      · intro hl hhl
        rw [hHx] at hhl
        simp only [List.getLast?_singleton, Option.some.injEq] at hhl
        rw [← hhl]
        exact hto

/-- Updating one request row in place (what set_status and attach_card do,
their field updates preserving the id) while appending a history row for
it whose to_status matches the row's new status preserves the
invariant. -/
theorem wfState_update_log (s : DBState) (rid : Nat)
    (f : RechargeRequest → RechargeRequest) (row : RequestStatusHistory)
    (req : RechargeRequest)
    (hfind : getRequest s.requests rid = some req)
    (hfid : ∀ r, (f r).id = r.id)
    (hrowid : row.request_id = rid)
    (hto : row.to_status = (f req).status)
    (hwf : wfState s) :
    wfState { s with requests := updateRequest s.requests rid f,
                     clock := s.clock + 1,
                     histories := s.histories ++ [row] } := by
  obtain ⟨hbound, hhbound, hnd, hrec⟩ := hwf
  have hreqmem : req ∈ s.requests := List.mem_of_find?_eq_some hfind
  have hreqid : req.id = rid := by
    have := List.find?_some hfind
    simpa using this
  have hH : ∀ x : Nat,
      requestHistory
        { s with
            requests := updateRequest s.requests rid f,
            clock := s.clock + 1,
            histories := s.histories ++ [row] } x =
      requestHistory s x ++
        [row].filter (fun h => decide (h.request_id = x)) := by
    intro x
    show (s.histories ++ [row]).filter (fun h => decide (h.request_id = x)) =
      requestHistory s x ++ [row].filter (fun h => decide (h.request_id = x))
    rw [List.filter_append]
    rfl
  refine ⟨?_, ?_, ?_, ?_⟩
  · intro r' hr'
    obtain ⟨r, hr, hr'eq⟩ := List.mem_map.mp hr'
    have hineq : r'.id = r.id := by
      rw [← hr'eq]
      by_cases hc : r.id = rid
      · simp [hc, hfid]
      · simp [hc]
    rw [hineq]
    exact hbound r hr
  · intro h hh
    rcases List.mem_append.mp hh with h' | h'
    · exact hhbound h h'
    · obtain rfl := List.mem_singleton.mp h'
      rw [hrowid, ← hreqid]
      exact hbound req hreqmem
  · show ((updateRequest s.requests rid f).map (fun r => r.id)).Nodup
    rw [updateRequest_ids s.requests rid f hfid]
    exact hnd
  · intro r' hr'
    obtain ⟨r, hr, hr'eq⟩ := List.mem_map.mp hr'
    by_cases hc : r.id = rid
    · have hrreq : r = req :=
        List.inj_on_of_nodup_map hnd hr hreqmem (by rw [hc, hreqid])
      subst hrreq
      rw [if_pos hc] at hr'eq
      subst hr'eq
      have hid' : (f r).id = rid := by
        rw [hfid]
        exact hc
      obtain ⟨h1, h2, h3⟩ := hrec r hr
      have hsame : requestHistory s (f r).id = requestHistory s r.id := by
        rw [hfid]
      have htr : (decide (row.request_id = (f r).id)) = true := by
        simp only [decide_eq_true_eq]
        rw [hrowid, hid']
      have hHx := hH (f r).id
      rw [hsame,
          show [row].filter (fun h => decide (h.request_id = (f r).id)) = [row]
            from by simp [List.filter, htr]] at hHx
      refine ⟨by rw [hHx]; simp, ?_, ?_⟩
      · intro h0 hh0
        rw [hHx, head_append_of_ne_nil _ _ h1] at hh0
        exact h2 h0 hh0
      · intro hl hhl
        rw [hHx, List.getLast?_concat] at hhl
        simp only [Option.some.injEq] at hhl
        rw [← hhl]
        exact hto
    · rw [if_neg hc] at hr'eq
      subst hr'eq
      have hne : (decide (row.request_id = r.id)) = false := by
        simp only [decide_eq_false_iff_not]
        rw [hrowid]
        intro he
        exact hc he.symm
      have hHx := hH r.id
      rw [show [row].filter (fun h => decide (h.request_id = r.id)) = []
            from by simp [List.filter, hne],
          List.append_nil] at hHx
      obtain ⟨h1, h2, h3⟩ := hrec r hr
      exact ⟨by rw [hHx]; exact h1,
             fun h0 hh0 => h2 h0 (by rw [hHx] at hh0; exact hh0),
             fun hl hhl => h3 hl (by rw [hHx] at hhl; exact hhl)⟩

/-- Every workflow operation preserves the invariant. -/
theorem wfState_applyROp (s : DBState) (op : ROp) (hwf : wfState s) :
    wfState (applyROp s op) := by
  cases op with
  | createOp a b c d e f g =>
      show wfState (match create_request s a b c d e f g with
        | .ok (s', _) => s'
        | .error _ => s)
      unfold create_request
      by_cases hle : c ≤ 0
      · rw [if_pos hle]
        exact hwf
      · rw [if_neg hle]
        exact wfState_insert s _ _ rfl rfl rfl rfl hwf
  | setStatusOp rid actor st note =>
      show wfState (match set_status s rid actor st note with
        | .ok (s', _) => s'
        | .error _ => s)
      unfold set_status
      cases hfind : getRequest s.requests rid with
      | none => exact hwf
      | some req =>
          exact wfState_update_log s rid
            (fun r => { r with status := st, updated_at := s.clock })
            _ req hfind (fun r => rfl) rfl rfl hwf
  | attachOp rid cid actor =>
      show wfState (match attach_card s rid cid actor with
        | .ok (s', _) => s'
        | .error _ => s)
      unfold attach_card
      cases hfind : getRequest s.requests rid with
      | none => exact hwf
      | some req =>
          exact wfState_update_log s rid
            (fun r =>
              { r with final_card_id := some cid, updated_at := s.clock })
            _ req hfind (fun r => rfl) rfl rfl hwf

theorem wfState_runROps (s : DBState) (ops : List ROp) (hwf : wfState s) :
    wfState (runROps s ops) := by
  induction ops generalizing s with
  | nil => exact hwf
  | cons op ops ih => exact ih (applyROp s op) (wfState_applyROp s op hwf)

theorem wfState_emptyDB : wfState emptyDB := by
  refine ⟨?_, ?_, ?_, ?_⟩
  · intro r hr
    cases hr
  · intro h hh
    cases hh
  · simp [emptyDB]
  · intro r hr
    cases hr

/-- C3: starting from the empty store, after any sequence of
create_request, set_status and attach_card operations, every request's
RequestStatusHistory rows in creation order are non-empty, the first row
has from_status = null, and the final row's to_status equals the
request's current status. -/
theorem request_history_reconstructs (ops : List ROp) :
    historyReconstructs (runROps emptyDB ops) :=
  (wfState_runROps emptyDB ops wfState_emptyDB).2.2.2

end Rasid
